import Mathlib

/-!
Shallow embedding of the regression prediction app (src/src/app.py).

The app keeps two process-wide globals: the uploaded pandas DataFrame
(`uploaded_data`) and the sklearn Pipeline (`model`).  The embedding models a
DataFrame as a list of named, dtype-tagged columns of cells, and models the
pipeline as an explicit artifact recording the fitted preprocessing statistics
(per-column imputation and scaling data, one-hot category vocabularies), the
raw input column list exposed by sklearn as `feature_names_in_`, and the
learned regression function.

Library behaviour that the app calls into (the shuffling used by
`train_test_split`, the square root used by `StandardScaler` and by Pearson
correlation, and the function learned by `XGBRegressor`) is abstracted into an
`MLLib` record of deterministic functions; theorems quantify over it, and
witnesses instantiate it concretely.  Machine floats are modelled as `Rat`.
-/

namespace XgApp

/-- Pandas column dtypes that matter to the app: `num` is any numpy numeric
dtype (matched by `np.number` / `'number'`), `obj` is the object dtype that
`read_csv` gives textual columns, `catg` is the pandas category dtype, `boolT`
and `dateT` are bool and datetime columns (matched by none of the dtype
selectors used in the app). -/
inductive DType
  | num
  | obj
  | catg
  | boolT
  | dateT
deriving DecidableEq, Repr, Inhabited

/-- A single DataFrame cell: a numeric value, a string, a bool, or missing
(NaN). -/
inductive Cell
  | real (x : Rat)
  | text (s : String)
  | boolv (b : Bool)
  | na
deriving DecidableEq, Repr, Inhabited

/-- A named DataFrame column with its dtype tag and cells. -/
structure Col where
  name : String
  dtype : DType
  cells : List Cell
deriving DecidableEq, Repr, Inhabited

/-- A DataFrame: an ordered list of named columns. -/
structure Dataset where
  cols : List Col
deriving DecidableEq, Repr, Inhabited

/-- Number of rows (length of the first column; pandas frames are
rectangular). -/
def nRows (df : Dataset) : Nat :=
  match df.cols with
  | [] => 0
  | c :: _ => c.cells.length

/-- The ordered column names of a frame (`df.columns`). -/
def colNames (df : Dataset) : List String :=
  df.cols.map (fun c => c.name)

/-- Column lookup by name (`df[name]` succeeding, `none` for a KeyError). -/
def Dataset.col? (df : Dataset) (n : String) : Option Col :=
  df.cols.find? (fun c => c.name = n)

/-- `df.select_dtypes(include=ds)`: the columns whose dtype is in `ds`, in
original column order. -/
def selectDtypes (ds : List DType) (df : Dataset) : List Col :=
  df.cols.filter (fun c => decide (c.dtype ∈ ds))

/-- Rational number from a natural number, in lowest terms. -/
def nRat (n : Nat) : Rat := mkRat (Int.ofNat n) 1

/-- Rational addition, written through `mkRat` so that it evaluates (the
library addition on `Rat` is marked irreducible); the result is the same
normalised rational. -/
def rAdd (a b : Rat) : Rat := mkRat (a.num * b.den + b.num * a.den) (a.den * b.den)

/-- Rational subtraction, evaluable; same value as the library subtraction. -/
def rSub (a b : Rat) : Rat := rAdd a (-b)

/-- Rational multiplication, evaluable; same value as the library product. -/
def rMul (a b : Rat) : Rat := mkRat (a.num * b.num) (a.den * b.den)

/-- Rational division, evaluable; division by zero gives 0 exactly as the
library division does. -/
def rDiv (a b : Rat) : Rat := Rat.divInt (a.num * b.den) (a.den * b.num)

/-- Sum of a list of rationals. -/
def rSum (l : List Rat) : Rat := l.foldr rAdd 0

/-- Absolute value of a rational (pandas `.abs()`). -/
def ratAbs (x : Rat) : Rat := if x < 0 then -x else x

/-- Code-point lexicographic comparison of character lists, the order numpy
sorts string categories by. -/
def charsLt : List Char → List Char → Bool
  | [], [] => false
  | [], _ :: _ => true
  | _ :: _, [] => false
  | c :: cs, d :: ds =>
    if c.toNat < d.toNat then true
    else if d.toNat < c.toNat then false
    else charsLt cs ds

/-- Lexicographic string comparison by code points (the standard string
order, written over the character lists so that it evaluates). -/
def strLt (a b : String) : Bool := charsLt a.data b.data

/-- Extract the numeric value of a cell the way pandas numeric reductions see
it (bools count as 0/1, strings and NaN are not numeric). -/
def cellReal? : Cell → Option Rat
  | Cell.real x => some x
  | Cell.boolv b => some (if b then 1 else 0)
  | _ => none

/-- The XGBRegressor hyperparameters the app passes. -/
structure XGBParams where
  nEstimators : Nat
  maxDepth : Nat
  learningRate : Rat
  subsample : Rat
  randomState : Nat
deriving DecidableEq, Repr

/-- The literal hyperparameters in the source:
`XGBRegressor(n_estimators=200, max_depth=3, learning_rate=0.3, subsample=1.0,
random_state=42)`. -/
def xgbFixed : XGBParams := ⟨200, 3, mkRat 3 10, 1, 42⟩

/-- The deterministic pieces of library behaviour the app relies on:
`shuffle seed n` is the permutation of row indices used by
`train_test_split(random_state=seed)`, `sqrtA` is the (nonnegative) square
root used by scaling and correlation, and `learner` is the regression
function produced by fitting `XGBRegressor` with the given hyperparameters on
an encoded matrix and its labels. -/
structure MLLib where
  shuffle : Nat → Nat → List Nat
  sqrtA : Rat → Rat
  learner : XGBParams → List (List Rat) → List Rat → (List Rat → Rat)

/-- A fitted pipeline, as the app uses it: the hyperparameters, the two
transformer column lists of the ColumnTransformer, the raw input column list
sklearn exposes as `model.feature_names_in_`, the fitted numeric statistics
(column name, imputation mean, population variance), the fitted categorical
statistics (column name, imputation mode, sorted category vocabulary), and
the learned regression function over encoded rows. -/
structure Artifact where
  params : XGBParams
  numericFeatures : List String
  categoricalFeatures : List String
  featureNamesIn : List String
  numStats : List (String × Rat × Rat)
  catStats : List (String × String × List String)
  predictFn : List Rat → Rat

/-- The possible values of the global `model`: the initial `None`, an
assigned-but-unfitted (or mid-fit-failed) Pipeline object carrying its
construction data, or a fully fitted pipeline. -/
inductive ModelState
  | noModel
  | unfitted (p : XGBParams) (numF catF : List String)
  | fitted (art : Artifact)

-- _______________Upload Component_____________________________

/-- The process-wide mutable state: the globals `uploaded_data` and `model`. -/
structure AppState where
  uploadedData : Option Dataset
  model : ModelState

/-- Python tuple unpacking `a, b = l` for a two-element unpack: raises
ValueError unless the list has exactly two elements. -/
def unpack2 (l : List String) : Except String (String × String) :=
  match l with
  | [a, b] => Except.ok (a, b)
  | [] => Except.error "ValueError: not enough values to unpack"
  | [_] => Except.error "ValueError: not enough values to unpack"
  | _ => Except.error "ValueError: too many values to unpack"

/-- `handle_upload`.  The base64 decode, utf-8 decode and `pd.read_csv` chain
is abstracted as the `dec` parameter (success gives the parsed frame, error
carries the exception text); the split of the data-URL on the first comma and
the global update are modelled from the source.  Returns the feedback string
and the new state. -/
def handleUpload (dec : String → Except String Dataset) (s : AppState)
    (contents : Option String) (filename : String) : String × AppState :=
  match contents with
  | none => ("No file uploaded.", s)
  | some c =>
    if c = "" then ("No file uploaded.", s)
    else
      match unpack2 (c.splitOn ",") with
      | Except.error e => ("Error reading file: " ++ e, s)
      | Except.ok (_, contentString) =>
        match dec contentString with
        | Except.error e => ("Error reading file: " ++ e, s)
        | Except.ok df =>
          ("Uploaded file: " ++ filename ++ " (Rows: " ++ toString (nRows df)
              ++ ", Columns: " ++ toString df.cols.length ++ ")",
            { s with uploadedData := some df })

-- _______________Target Selection Component_____________________________

/-- `update_target_dropdown`: the numeric column names of the loaded frame,
empty when nothing is loaded. -/
def updateTargetDropdown (d : Option Dataset) : List String :=
  match d with
  | some df => (selectDtypes [DType.num] df).map (fun c => c.name)
  | none => []

-- _______________Feature checkboxes_____________________________

/-- `get_options`: numeric column names followed by object/category column
names; empty when nothing is loaded. -/
def getOptions (d : Option Dataset) : List String :=
  match d with
  | some df =>
      (selectDtypes [DType.num] df).map (fun c => c.name)
        ++ (selectDtypes [DType.obj, DType.catg] df).map (fun c => c.name)
  | none => []

-- _______________Bar Charts_____________________________

/-- Python truthiness of the categorical radio value: `None` and the empty
string are falsy. -/
def truthy : Option String → Bool
  | none => false
  | some s => !s.isEmpty

/-- Distinct non-NaN cells in order of first occurrence, with an accumulator
of keys already seen.  Pandas groupby drops NaN keys; it also sorts keys, but
no property below depends on key order. -/
def dedupKeysAux : List Cell → List Cell → List Cell
  | _, [] => []
  | seen, c :: cs =>
    if c = Cell.na || seen.contains c then dedupKeysAux seen cs
    else c :: dedupKeysAux (c :: seen) cs

/-- The group keys of `df.groupby(col)`. -/
def dedupKeys (l : List Cell) : List Cell := dedupKeysAux [] l

/-- `uploaded_data.groupby(key)[target].mean()`: raises KeyError when either
column is absent; groups with no numeric target values are absent from the
output (pandas reports NaN there; nothing below depends on it). -/
def groupbyMean (df : Dataset) (key target : String) :
    Except String (List (Cell × Rat)) :=
  match df.col? key with
  | none => Except.error ("KeyError: " ++ key)
  | some kcol =>
    match df.col? target with
    | none => Except.error ("KeyError: " ++ target)
    | some tcol =>
      Except.ok ((dedupKeys kcol.cells).filterMap (fun k =>
        let vals := (kcol.cells.zip tcol.cells).filterMap (fun p =>
          if p.1 = k then cellReal? p.2 else none)
        if vals.isEmpty then none
        else some (k, rDiv (rSum vals) (nRat vals.length))))

/-- Pearson correlation of two columns over the rows where both are numeric,
as pandas `corr` computes it (pairwise NaN dropping).  The square root in the
normalisation comes from the library record; a zero denominator yields 0 under
rational division where pandas reports NaN, which no property below
inspects. -/
def pearsonCorr (lib : MLLib) (xs ys : List Cell) : Rat :=
  let pairs := (xs.zip ys).filterMap (fun p =>
    match cellReal? p.1, cellReal? p.2 with
    | some x, some y => some (x, y)
    | _, _ => none)
  let n := pairs.length
  if n = 0 then 0
  else
    let mx := rDiv (rSum (pairs.map (fun p => p.1))) (nRat n)
    let my := rDiv (rSum (pairs.map (fun p => p.2))) (nRat n)
    let cov := rSum (pairs.map (fun p => rMul (rSub p.1 mx) (rSub p.2 my)))
    let vx := rSum (pairs.map (fun p => rMul (rSub p.1 mx) (rSub p.1 mx)))
    let vy := rSum (pairs.map (fun p => rMul (rSub p.2 my) (rSub p.2 my)))
    rDiv cov (rMul (lib.sqrtA vx) (lib.sqrtA vy))

/-- Descending insertion by correlation strength (`sort_values(ascending=False)`). -/
def insortDescRat (p : String × Rat) : List (String × Rat) → List (String × Rat)
  | [] => [p]
  | q :: qs => if q.2 ≤ p.2 then p :: q :: qs else q :: insortDescRat p qs

/-- Sort an association list by value, descending. -/
def sortByDesc (l : List (String × Rat)) : List (String × Rat) :=
  l.foldr insortDescRat []

/-- `numeric_data.corr()[target].drop(target).abs().sort_values(ascending=False)`
over the numeric sub-frame: KeyError when the target is not one of its
columns. -/
def corrSeries (lib : MLLib) (numeric : Dataset) (target : String) :
    Except String (List (String × Rat)) :=
  match numeric.col? target with
  | none => Except.error ("KeyError: " ++ target)
  | some tcol =>
    let others := numeric.cols.filter (fun c => c.name ≠ target)
    Except.ok (sortByDesc (others.map (fun c =>
      (c.name, ratAbs (pearsonCorr lib tcol.cells c.cells)))))

/-- `update_barcharts`.  Charts are modelled by the data they plot (`none` is
the empty figure `{}`).  The function has no try/except in the source, so any
KeyError from the groupby or correlation lookups propagates, modelled as an
`Except.error` result. -/
def updateBarcharts (lib : MLLib) (d : Option Dataset)
    (target catVar : Option String) :
    Except String (List String × Option (List (Cell × Rat)) × Option (List (String × Rat))) :=
  match d, target with
  | none, _ => Except.ok ([], none, none)
  | some _, none => Except.ok ([], none, none)
  | some df, some tgt =>
    let numericData : Dataset := ⟨selectDtypes [DType.num] df⟩
    let catCols := (selectDtypes [DType.obj] df).map (fun c => c.name)
    match (if truthy catVar then
            (groupbyMean df (catVar.getD "") tgt).map Option.some
           else Except.ok none) with
    | Except.error e => Except.error e
    | Except.ok categoryChart =>
      match (if numericData.cols.isEmpty || nRows numericData = 0 then
              Except.ok none
             else (corrSeries lib numericData tgt).map Option.some) with
      | Except.error e => Except.error e
      | Except.ok corrChart => Except.ok (catCols, categoryChart, corrChart)

-- _______________Train Component_____________________________

/-- `uploaded_data[selected_features]`: pick the named columns in the given
order, raising KeyError on the first missing name. -/
def pickCols (df : Dataset) : List String → Except String (List Col)
  | [] => Except.ok []
  | n :: ns =>
    match df.col? n with
    | none => Except.error ("KeyError: " ++ n)
    | some c =>
      match pickCols df ns with
      | Except.error e => Except.error e
      | Except.ok cs => Except.ok (c :: cs)

/-- `X = uploaded_data[selected_features]` as a frame. -/
def sliceCols (df : Dataset) (names : List String) : Except String Dataset :=
  match pickCols df names with
  | Except.error e => Except.error e
  | Except.ok cs => Except.ok ⟨cs⟩

/-- `y = uploaded_data[target]`. -/
def sliceCol (df : Dataset) (n : String) : Except String Col :=
  match df.col? n with
  | none => Except.error ("KeyError: " ++ n)
  | some c => Except.ok c

/-- Rows of a frame at the given indices, in that order. -/
def takeRows (X : Dataset) (is : List Nat) : Dataset :=
  ⟨X.cols.map (fun c => { c with cells := is.map (fun i => c.cells.getD i Cell.na) })⟩

/-- Cells of a column at the given indices, in that order. -/
def takeCells (c : Col) (is : List Nat) : Col :=
  { c with cells := is.map (fun i => c.cells.getD i Cell.na) }

/-- The result of `train_test_split`. -/
structure SplitOut where
  xTrain : Dataset
  xTest : Dataset
  yTrain : Col
  yTest : Col

/-- `train_test_split(X, y, test_size=0.2, random_state=42)`: the test size is
`ceil(0.2 * n)`, the split raises when the training side would be empty, the
shuffled index order comes from the library record with seed 42, the first
`nTest` shuffled indices are the test rows and the rest the training rows. -/
def trainTestSplit (lib : MLLib) (X : Dataset) (y : Col) :
    Except String SplitOut :=
  let n := y.cells.length
  let nTest := (n + 4) / 5
  let nTrain := n - nTest
  if nTrain = 0 then
    Except.error "ValueError: the resulting train set will be empty"
  else
    let idx := lib.shuffle 42 n
    let testIdx := idx.take nTest
    let trainIdx := idx.drop nTest
    Except.ok ⟨takeRows X trainIdx, takeRows X testIdx,
      takeCells y trainIdx, takeCells y testIdx⟩

/-- The numeric values of a column as the mean imputer sees them (NaN
skipped, bools cast). -/
def realCells (c : Col) : List Rat :=
  c.cells.filterMap cellReal?

/-- The string values of a column (NaN skipped). -/
def textCells (c : Col) : List String :=
  c.cells.filterMap (fun x =>
    match x with
    | Cell.text s => some s
    | _ => none)

/-- Fitted statistics of the numeric transformer
(`SimpleImputer(strategy='mean')` then `StandardScaler`): for each numeric
feature with at least one observed value, its training mean and population
variance.  The imputer drops columns that are entirely missing
(`keep_empty_features=False`). -/
def fitNumeric (Xtr : Dataset) (names : List String) :
    List (String × Rat × Rat) :=
  names.filterMap (fun f =>
    match Xtr.col? f with
    | none => none
    | some c =>
      let xs := realCells c
      if xs.isEmpty then none
      else
        let m := rDiv (rSum xs) (nRat xs.length)
        let v := rDiv (rSum (xs.map (fun x => rMul (rSub x m) (rSub x m))))
          (nRat xs.length)
        some (f, m, v))

/-- Sorted insertion without duplicates, for the sorted category vocabulary
`OneHotEncoder` fits (`np.unique`). -/
def insortDedup (s : String) : List String → List String
  | [] => [s]
  | t :: ts =>
    if s = t then t :: ts
    else if strLt s t then s :: t :: ts
    else t :: insortDedup s ts

/-- Sorted deduplicated list of strings. -/
def sortedUniqueStr (l : List String) : List String :=
  l.foldr insortDedup []

/-- The most frequent string value, smallest first on ties, as
`SimpleImputer(strategy='most_frequent')` computes it; `none` when the column
has no observed values. -/
def modeText (l : List String) : Option String :=
  (sortedUniqueStr l).foldl (fun acc s =>
    match acc with
    | none => some s
    | some b => if l.count b < l.count s then some s else acc) none

/-- Fitted statistics of the categorical transformer
(`SimpleImputer(strategy='most_frequent')` then
`OneHotEncoder(handle_unknown='ignore')`): for each categorical feature with
at least one observed value, its imputation mode and the sorted category
vocabulary of the imputed training column.  Entirely-missing columns are
dropped by the imputer. -/
def fitCat (Xtr : Dataset) (names : List String) :
    List (String × String × List String) :=
  names.filterMap (fun f =>
    match Xtr.col? f with
    | none => none
    | some c =>
      match modeText (textCells c) with
      | none => none
      | some m =>
        let imputed := c.cells.map (fun x =>
          match x with
          | Cell.na => Cell.text m
          | x => x)
        some (f, m, sortedUniqueStr (imputed.filterMap (fun x =>
          match x with
          | Cell.text s => some s
          | _ => none))))

/-- The numeric transform of one cell: impute NaN by the training mean, then
standardise by the training mean and the square root of the training variance
(a zero variance scales by 1, as StandardScaler does).  A string cell cannot
be cast to float and raises. -/
def numTransform (lib : MLLib) (m v : Rat) (c : Cell) : Except String Rat :=
  let sd := if v = 0 then 1 else lib.sqrtA v
  match c with
  | Cell.na => Except.ok 0
  | Cell.real x => Except.ok (rDiv (rSub x m) sd)
  | Cell.boolv b => Except.ok (rDiv (rSub (if b then (1 : Rat) else 0) m) sd)
  | Cell.text s => Except.error ("ValueError: could not convert string to float: " ++ s)

/-- The one-hot transform of one cell against a fitted vocabulary: impute NaN
by the training mode, then emit one indicator per category;
`handle_unknown='ignore'` makes every unmatched value an all-zero block. -/
def catTransform (mode : String) (cats : List String) (c : Cell) : List Rat :=
  let c2 := match c with
    | Cell.na => Cell.text mode
    | c => c
  cats.map (fun k => if c2 = Cell.text k then (1 : Rat) else 0)

/-- The numeric block of an encoded row, reading cells through `get`. -/
def encodeNum (lib : MLLib) : List (String × Rat × Rat) →
    (String → Option Cell) → Except String (List Rat)
  | [], _ => Except.ok []
  | st :: sts, get =>
    match get st.1 with
    | none => Except.error ("KeyError: " ++ st.1)
    | some c =>
      match numTransform lib st.2.1 st.2.2 c with
      | Except.error e => Except.error e
      | Except.ok x =>
        match encodeNum lib sts get with
        | Except.error e => Except.error e
        | Except.ok xs => Except.ok (x :: xs)

/-- The one-hot block of an encoded row for one categorical feature. -/
def encodeCatBlock (cs : String × String × List String)
    (get : String → Option Cell) : Except String (List Rat) :=
  match get cs.1 with
  | none => Except.error ("KeyError: " ++ cs.1)
  | some c => Except.ok (catTransform cs.2.1 cs.2.2 c)

/-- The concatenated one-hot blocks of an encoded row. -/
def encodeCats : List (String × String × List String) →
    (String → Option Cell) → Except String (List Rat)
  | [], _ => Except.ok []
  | cs :: css, get =>
    match encodeCatBlock cs get with
    | Except.error e => Except.error e
    | Except.ok b =>
      match encodeCats css get with
      | Except.error e => Except.error e
      | Except.ok bs => Except.ok (b ++ bs)

/-- A full encoded row, numeric transformer output first, then the
categorical blocks, in the transformer order of the ColumnTransformer. -/
def encodeWith (lib : MLLib) (numStats : List (String × Rat × Rat))
    (catStats : List (String × String × List String))
    (get : String → Option Cell) : Except String (List Rat) :=
  match encodeNum lib numStats get with
  | Except.error e => Except.error e
  | Except.ok a =>
    match encodeCats catStats get with
    | Except.error e => Except.error e
    | Except.ok b => Except.ok (a ++ b)

/-- Cell access of row `i` of a frame by column name. -/
def rowGet (X : Dataset) (i : Nat) (f : String) : Option Cell :=
  (X.col? f).map (fun c => c.cells.getD i Cell.na)

/-- Encode the rows of a frame at the given indices. -/
def encodeRowsIdx (lib : MLLib) (numStats : List (String × Rat × Rat))
    (catStats : List (String × String × List String)) (X : Dataset) :
    List Nat → Except String (List (List Rat))
  | [] => Except.ok []
  | i :: is =>
    match encodeWith lib numStats catStats (rowGet X i) with
    | Except.error e => Except.error e
    | Except.ok r =>
      match encodeRowsIdx lib numStats catStats X is with
      | Except.error e => Except.error e
      | Except.ok rs => Except.ok (r :: rs)

/-- Labels for the regressor: XGBoost rejects labels that are not finite
numbers (strings cannot be cast, NaN raises a label validation error). -/
def getLabels : List Cell → Except String (List Rat)
  | [] => Except.ok []
  | Cell.real x :: cs =>
    match getLabels cs with
    | Except.error e => Except.error e
    | Except.ok xs => Except.ok (x :: xs)
  | _ :: _ => Except.error "ValueError: label must consist of finite numbers"

/-- `model.fit(X_train, y_train)` for the constructed pipeline: validate the
labels, fit the two transformers on the training split, encode the training
rows, and learn the regression function. -/
def fitPipeline (lib : MLLib) (p : XGBParams) (numF catF : List String)
    (Xtr : Dataset) (ytr : Col) : Except String Artifact :=
  match getLabels ytr.cells with
  | Except.error e => Except.error e
  | Except.ok labels =>
    let numStats := fitNumeric Xtr numF
    let catStats := fitCat Xtr catF
    match encodeRowsIdx lib numStats catStats Xtr (List.range (nRows Xtr)) with
    | Except.error e => Except.error e
    | Except.ok rows =>
      Except.ok
        { params := p
          numericFeatures := numF
          categoricalFeatures := catF
          featureNamesIn := colNames Xtr
          numStats := numStats
          catStats := catStats
          predictFn := lib.learner p rows labels }

/-- `r2_score`: one minus the ratio of residual to total sum of squares (a
zero total sum of squares divides to 0 under rational division, where sklearn
warns and reports NaN; nothing below inspects that case). -/
def r2score (yTrue yPred : List Rat) : Rat :=
  let n := yTrue.length
  let m := rDiv (rSum yTrue) (nRat n)
  let ssRes := rSum ((yTrue.zip yPred).map (fun p => rMul (rSub p.1 p.2) (rSub p.1 p.2)))
  let ssTot := rSum (yTrue.map (fun a => rMul (rSub a m) (rSub a m)))
  rSub 1 (rDiv ssRes ssTot)

/-- The outcome of `train_model`, before rendering to the feedback string. -/
inductive TrainMsg
  | clickPrompt
  | noData
  | noTarget
  | noFeatures
  | success (r2 : Rat)
  | trainError (e : String)
deriving DecidableEq, Repr

/-- The feedback strings of `train_model`. -/
def renderTrainMsg : TrainMsg → String
  | TrainMsg.clickPrompt => "Click Train Model to start training."
  | TrainMsg.noData => "Error: No data uploaded. Please upload a dataset."
  | TrainMsg.noTarget => "Error: No target variable selected."
  | TrainMsg.noFeatures => "Error: No features selected for training."
  | TrainMsg.success r2 => "Model trained successfully! R^2 score: " ++ toString r2
  | TrainMsg.trainError e => "Error during training: " ++ e

/-- The try block of `train_model`, after the precondition guards: slice the
feature matrix and target, split, build the transformer column lists,
assign the global `model = Pipeline(...)` (crucially, before `fit` runs), fit,
encode the test split, and score.  A failure in slicing or splitting leaves
the previous model in place, while a failure in fitting or scoring happens
after the global has been replaced. -/
def trainModelBody (lib : MLLib) (s : AppState) (df : Dataset)
    (tgt : String) (feats : List String) : TrainMsg × AppState :=
  match sliceCols df feats with
  | Except.error e => (TrainMsg.trainError e, s)
  | Except.ok X =>
    match sliceCol df tgt with
    | Except.error e => (TrainMsg.trainError e, s)
    | Except.ok y =>
      match trainTestSplit lib X y with
      | Except.error e => (TrainMsg.trainError e, s)
      | Except.ok sp =>
        let numF := (selectDtypes [DType.num] X).map (fun c => c.name)
        let catF := (selectDtypes [DType.obj] X).map (fun c => c.name)
        let s1 : AppState := { s with model := ModelState.unfitted xgbFixed numF catF }
        match fitPipeline lib xgbFixed numF catF sp.xTrain sp.yTrain with
        | Except.error e => (TrainMsg.trainError e, s1)
        | Except.ok art =>
          let s2 : AppState := { s with model := ModelState.fitted art }
          match encodeRowsIdx lib art.numStats art.catStats sp.xTest
              (List.range (nRows sp.xTest)) with
          | Except.error e => (TrainMsg.trainError e, s2)
          | Except.ok rows =>
            match getLabels sp.yTest.cells with
            | Except.error e => (TrainMsg.trainError e, s2)
            | Except.ok yTestVals =>
              (TrainMsg.success (r2score yTestVals (rows.map art.predictFn)), s2)

/-- `train_model`.  The precondition guards (`if n_clicks is None`,
`if uploaded_data is None`, `if not target`, `if not selected_features`)
return their messages before the try block; every failure inside the try
block is caught and becomes a `trainError` message. -/
def trainModel (lib : MLLib) (s : AppState) (nClicks : Option Nat)
    (target : Option String) (features : Option (List String)) :
    TrainMsg × AppState :=
  match nClicks with
  | none => (TrainMsg.clickPrompt, s)
  | some _ =>
    match s.uploadedData with
    | none => (TrainMsg.noData, s)
    | some df =>
      match (target.getD "").isEmpty with
      | true => (TrainMsg.noTarget, s)
      | false =>
        match (features.getD []).isEmpty with
        | true => (TrainMsg.noFeatures, s)
        | false => trainModelBody lib s df (target.getD "") (features.getD [])

-- _______________Predict Component_____________________________

/-- Splitting a character list at every occurrence of a separator, with the
accumulator holding the current (reversed) piece: the semantics of Python
`str.split(sep)` (an empty string gives one empty piece, a trailing separator
gives a trailing empty piece). -/
def splitCharsAux (sep : Char) : List Char → List Char → List (List Char)
  | acc, [] => [acc.reverse]
  | acc, c :: cs =>
    if c = sep then acc.reverse :: splitCharsAux sep [] cs
    else splitCharsAux sep (c :: acc) cs

/-- Python `str.split(sep)` for a one-character separator. -/
def splitChar (sep : Char) (s : String) : List String :=
  (splitCharsAux sep [] s.data).map String.mk

/-- Strip leading and trailing whitespace, as Python `float` does before
parsing. -/
def trimChars (l : List Char) : List Char :=
  ((l.dropWhile Char.isWhitespace).reverse.dropWhile Char.isWhitespace).reverse

/-- The value of a digit run. -/
def digitsVal (l : List Char) : Nat :=
  l.foldl (fun n c => n * 10 + (c.toNat - 48)) 0

/-- Python `float(value)` on a token, as used to type each comma-split token:
leading and trailing whitespace is stripped, an optional sign precedes digits
with an optional decimal point.  (Exponent, infinity and nan spellings are
omitted; whether a token types as numeric or textual does not affect any
property proved below.) -/
def parseFloat? (s : String) : Option Rat :=
  let t := trimChars s.data
  let sgnu : Rat × List Char :=
    match t with
    | '-' :: rest => (-1, rest)
    | '+' :: rest => (1, rest)
    | _ => (1, t)
  if sgnu.2.isEmpty then none
  else
    match splitCharsAux '.' [] sgnu.2 with
    | [a] =>
      if a.all Char.isDigit then some (rMul sgnu.1 (nRat (digitsVal a)))
      else none
    | [a, b] =>
      if a.all Char.isDigit && b.all Char.isDigit
          && !(a.isEmpty && b.isEmpty) then
        some (rMul sgnu.1 (rAdd (nRat (digitsVal a))
          (rDiv (nRat (digitsVal b)) (nRat (10 ^ b.length)))))
      else none
    | _ => none

/-- Split the raw input on commas and type each token: a float if it parses,
otherwise the literal string. -/
def parseTokens (s : String) : List Cell :=
  (splitChar ',' s).map (fun t =>
    match parseFloat? t with
    | some x => Cell.real x
    | none => Cell.text t)

/-- A single-row frame as an association list from column name to cell. -/
abbrev Row := List (String × Cell)

/-- First cell under a column name in a single-row frame. -/
def lookupCell (row : Row) (n : String) : Option Cell :=
  (List.find? (fun p => p.1 = n) row).map (fun p => p.2)

/-- `pd.get_dummies` on a one-row frame: an object column named `f` holding
string `s` is replaced by an indicator column named `f_s` holding `True`;
columns of every other dtype pass through unchanged. -/
def getDummies (row : Row) : Row :=
  row.map (fun p =>
    match p.2 with
    | Cell.text s => (p.1 ++ "_" ++ s, Cell.boolv true)
    | c => (p.1, c))

/-- The column reconciliation in `make_prediction`: insert value 0 under every
name of `names` (the `model.feature_names_in_` list) missing from the
expanded row, then select and reorder the columns strictly to `names`,
dropping everything else.  The selection lookup always succeeds after the
insertion; the default is never reached. -/
def reconcile (row : Row) (names : List String) : Row :=
  let missing := names.filter (fun c => (lookupCell row c).isNone)
  let row2 := row ++ missing.map (fun c => (c, Cell.real 0))
  names.map (fun c => (c, (lookupCell row2 c).getD (Cell.real 0)))

/-- `model.predict(input_df)` on the fitted pipeline: sklearn validates the
frame columns against `feature_names_in_`, the ColumnTransformer encodes the
row, and the regressor maps the encoded row to a number. -/
def pipePredict (lib : MLLib) (art : Artifact) (row : Row) :
    Except String Rat :=
  if row.map (fun p => p.1) ≠ art.featureNamesIn then
    Except.error "ValueError: the feature names do not match those seen in fit"
  else
    match encodeWith lib art.numStats art.catStats (lookupCell row) with
    | Except.error e => Except.error e
    | Except.ok enc => Except.ok (art.predictFn enc)

/-- `make_prediction`.  Falsy clicks, input or feature list return the
prompt; the comma-split tokens are typed and counted before anything touches
the model; on a count mismatch the error names both counts; otherwise the row
is dummy-expanded, reconciled against `model.feature_names_in_` and sent to
the pipeline.  An unassigned or unfitted model raises an attribute error at
`model.feature_names_in_`, caught like every other exception in the try
block. -/
def makePrediction (lib : MLLib) (ms : ModelState) (nClicks : Option Nat)
    (inputValues : Option String) (features : Option (List String)) : String :=
  if nClicks = none || (inputValues.getD "").isEmpty
      || (features.getD []).isEmpty then
    "Please enter feature values and select features before predicting."
  else
    let feats := features.getD []
    let processed := parseTokens (inputValues.getD "")
    if processed.length ≠ feats.length then
      "Error: Expected " ++ toString feats.length ++ " features, but got "
        ++ toString processed.length ++ "."
    else
      match ms with
      | ModelState.fitted art =>
        let row := reconcile (getDummies (feats.zip processed)) art.featureNamesIn
        match pipePredict lib art row with
        | Except.ok p => "Prediction: " ++ toString p
        | Except.error e => "Error: " ++ e
      | _ => "Error: the model object has no attribute feature_names_in_"

-- _______________Spec-side definition and concrete data_____________________________

/-- The EncodedSchema in the words of the spec, for comparison with what the
code actually reconciles against: the exact ordered output-column list of the
fitted preprocessing step, that is the numeric feature names followed by one
column per observed category per categorical feature. -/
def specEncodedSchema (art : Artifact) : List String :=
  art.numStats.map (fun st => st.1)
    ++ art.catStats.flatMap (fun cs => cs.2.2.map (fun k => cs.1 ++ "_" ++ k))

/-- A concrete library instantiation for witnesses: identity shuffle, a
constant stand-in square root, a learner that returns the zero function. -/
def exLib : MLLib :=
  { shuffle := fun _ n => List.range n
    sqrtA := fun _ => 1
    learner := fun _ _ _ => fun _ => 0 }

/-- The example dataset of the spec scenario: numeric size, categorical
color, numeric price target; five rows. -/
def exDs : Dataset :=
  ⟨[⟨"size", DType.num,
      [Cell.real 10, Cell.real 20, Cell.real 30, Cell.real 40, Cell.real 50]⟩,
    ⟨"color", DType.obj,
      [Cell.text "red", Cell.text "blue", Cell.text "red", Cell.text "blue",
        Cell.text "red"]⟩,
    ⟨"price", DType.num,
      [Cell.real 1, Cell.real 2, Cell.real 3, Cell.real 4, Cell.real 5]⟩]⟩

/-- A fallback artifact (never reached in the concrete computations below). -/
def artDefault : Artifact :=
  { params := xgbFixed
    numericFeatures := []
    categoricalFeatures := []
    featureNamesIn := []
    numStats := []
    catStats := []
    predictFn := fun _ => 0 }

/-- A pre-existing fitted artifact standing for an earlier successful
training run. -/
def exArtOld : Artifact :=
  { params := xgbFixed
    numericFeatures := ["size"]
    categoricalFeatures := []
    featureNamesIn := ["size"]
    numStats := [("size", 30, 200)]
    catStats := []
    predictFn := fun _ => 0 }

/-- The result of the example training call on the spec scenario. -/
def exTrain : TrainMsg × AppState :=
  trainModel exLib ⟨some exDs, ModelState.noModel⟩ (some 1) (some "price")
    (some ["size", "color"])

/-- The artifact installed by the example training call. -/
def exArt : Artifact :=
  match exTrain.2.model with
  | ModelState.fitted a => a
  | _ => artDefault

/-- The dummy-expanded and reconciled single row of the example predict call
with raw text "10,red" (the color red was observed at training time). -/
def exRowSeen : Row :=
  reconcile (getDummies (["size", "color"].zip (parseTokens "10,red")))
    exArt.featureNamesIn

/-- The reconciled row of the example predict call with the unseen value
"10,green". -/
def exRowUnseen : Row :=
  reconcile (getDummies (["size", "color"].zip (parseTokens "10,green")))
    exArt.featureNamesIn

/-- A dataset with a bool column, which no dtype selector of the app
matches. -/
def exDsBool : Dataset :=
  ⟨[⟨"size", DType.num,
      [Cell.real 10, Cell.real 20, Cell.real 30, Cell.real 40, Cell.real 50]⟩,
    ⟨"flag", DType.boolT,
      [Cell.boolv true, Cell.boolv false, Cell.boolv true, Cell.boolv false,
        Cell.boolv true]⟩,
    ⟨"color", DType.obj,
      [Cell.text "red", Cell.text "blue", Cell.text "red", Cell.text "blue",
        Cell.text "red"]⟩,
    ⟨"price", DType.num,
      [Cell.real 1, Cell.real 2, Cell.real 3, Cell.real 4, Cell.real 5]⟩]⟩

/-- A dataset whose column `name` is textual; selecting it as the (stale)
target makes `fit` raise after the pipeline global has been replaced. -/
def exDsBad : Dataset :=
  ⟨[⟨"size", DType.num,
      [Cell.real 10, Cell.real 20, Cell.real 30, Cell.real 40, Cell.real 50]⟩,
    ⟨"name", DType.obj,
      [Cell.text "a", Cell.text "b", Cell.text "c", Cell.text "d",
        Cell.text "e"]⟩]⟩

/-- Cells that can appear in a reconciled prediction row: numbers and bools
(never strings, never NaN). -/
def goodCell : Cell → Bool
  | Cell.real _ => true
  | Cell.boolv _ => true
  | _ => false

/-- The feature matrix of the example train call on the bool-column dataset. -/
def exXBool : Dataset :=
  match sliceCols exDsBool ["size", "flag", "color"] with
  | Except.ok X => X
  | _ => ⟨[]⟩

/-- The target column of that call. -/
def exYBool : Col :=
  match sliceCol exDsBool "price" with
  | Except.ok y => y
  | _ => default

/-- The split of that call. -/
def exSpBool : SplitOut :=
  match trainTestSplit exLib exXBool exYBool with
  | Except.ok sp => sp
  | _ => ⟨⟨[]⟩, ⟨[]⟩, default, default⟩

/-- The fitted artifact of that call. -/
def exArtBool : Artifact :=
  match fitPipeline exLib xgbFixed
      ((selectDtypes [DType.num] exXBool).map (fun c => c.name))
      ((selectDtypes [DType.obj] exXBool).map (fun c => c.name))
      exSpBool.xTrain exSpBool.yTrain with
  | Except.ok a => a
  | _ => artDefault

/-- The encoded test rows of that call. -/
def exRowsBool : List (List Rat) :=
  match encodeRowsIdx exLib exArtBool.numStats exArtBool.catStats exSpBool.xTest
      (List.range (nRows exSpBool.xTest)) with
  | Except.ok r => r
  | _ => []

/-- The test labels of that call. -/
def exYvBool : List Rat :=
  match getLabels exSpBool.yTest.cells with
  | Except.ok v => v
  | _ => []

-- _______________Helper lemmas_____________________________

theorem find?_append_left {α} (p : α → Bool) {l1 : List α} (l2 : List α) {a : α}
    (h : l1.find? p = some a) : (l1 ++ l2).find? p = some a := by
  induction l1 with
  | nil => simp [List.find?] at h
  | cons x xs ih =>
    cases hx : p x with
    | true =>
      rw [List.find?_cons_of_pos _ hx] at h
      rw [List.cons_append, List.find?_cons_of_pos _ hx]
      exact h
    | false =>
      rw [List.find?_cons_of_neg _ (by simp [hx])] at h
      rw [List.cons_append, List.find?_cons_of_neg _ (by simp [hx])]
      exact ih h

theorem find?_append_right {α} (p : α → Bool) {l1 : List α} (l2 : List α)
    (h : l1.find? p = none) : (l1 ++ l2).find? p = l2.find? p := by
  induction l1 with
  | nil => simp
  | cons x xs ih =>
    cases hx : p x with
    | true => rw [List.find?_cons_of_pos _ hx] at h; exact absurd h (by simp)
    | false =>
      rw [List.find?_cons_of_neg _ (by simp [hx])] at h
      rw [List.cons_append, List.find?_cons_of_neg _ (by simp [hx])]
      exact ih h

theorem lookupCell_append_left {row b : Row} {n : String} {x : Cell}
    (h : lookupCell row n = some x) : lookupCell (row ++ b) n = some x := by
  unfold lookupCell at h ⊢
  cases hf : List.find? (fun p => p.1 = n) row with
  | none => rw [hf] at h; exact absurd h (by simp)
  | some q =>
    rw [hf] at h
    rw [find?_append_left _ b hf]
    exact h

theorem lookupCell_append_right {row b : Row} {n : String}
    (h : lookupCell row n = none) : lookupCell (row ++ b) n = lookupCell b n := by
  unfold lookupCell at h ⊢
  cases hf : List.find? (fun p => p.1 = n) row with
  | none => rw [find?_append_right _ b hf]
  | some q => rw [hf] at h; exact absurd h (by simp)

theorem lookupCell_map_self {names : List String} {n : String}
    (g : String → Cell) (h : n ∈ names) :
    lookupCell (names.map (fun c => (c, g c))) n = some (g n) := by
  induction names with
  | nil => cases h
  | cons c cs ih =>
    by_cases hc : c = n
    · subst hc
      unfold lookupCell
      rw [List.map_cons, List.find?_cons_of_pos _ (by simp)]
      rfl
    · unfold lookupCell
      rw [List.map_cons, List.find?_cons_of_neg _ (by simp [hc])]
      have h2 : n ∈ cs := by
        cases List.mem_cons.mp h with
        | inl he => exact absurd he.symm hc
        | inr hm => exact hm
      exact ih h2

/-- The reconciliation computes, for each expected column in order, the
expanded row value when present and 0 otherwise. -/
theorem reconcile_eq (row : Row) (names : List String) :
    reconcile row names
      = names.map (fun c => (c, (lookupCell row c).getD (Cell.real 0))) := by
  unfold reconcile
  apply List.map_congr_left
  intro c hc
  cases hl : lookupCell row c with
  | some x => simp [lookupCell_append_left hl, hl]
  | none =>
    have hmem : c ∈ names.filter (fun c => (lookupCell row c).isNone) :=
      List.mem_filter.mpr ⟨hc, by simp [hl]⟩
    simp [lookupCell_append_right hl,
      lookupCell_map_self (fun _ => Cell.real 0) hmem, hl]

/-- The reconciled row has exactly the expected column names, in order. -/
theorem reconcile_names (row : Row) (names : List String) :
    (reconcile row names).map (fun p => p.1) = names := by
  rw [reconcile_eq, List.map_map]
  have h2 : ((fun p : String × Cell => p.1)
      ∘ fun c => (c, (lookupCell row c).getD (Cell.real 0))) = fun c => c := rfl
  rw [h2, List.map_id']

theorem parseTokens_cells {s : String} {c : Cell} (h : c ∈ parseTokens s) :
    (∃ x, c = Cell.real x) ∨ ∃ t, c = Cell.text t := by
  unfold parseTokens at h
  obtain ⟨t, _, ht⟩ := List.mem_map.mp h
  cases hp : parseFloat? t with
  | some x => rw [hp] at ht; exact Or.inl ⟨x, ht.symm⟩
  | none => rw [hp] at ht; exact Or.inr ⟨t, ht.symm⟩

theorem getDummies_good {feats : List String} {s : String} {p : String × Cell}
    (h : p ∈ getDummies (feats.zip (parseTokens s))) : goodCell p.2 = true := by
  unfold getDummies at h
  obtain ⟨q, hq, hpq⟩ := List.mem_map.mp h
  have hc : q.2 ∈ parseTokens s := (List.of_mem_zip (by exact hq)).2
  rcases parseTokens_cells hc with ⟨x, hx⟩ | ⟨t, ht⟩
  · rw [hx] at hpq
    rw [← hpq]
    rfl
  · rw [ht] at hpq
    rw [← hpq]
    rfl

theorem lookupCell_good {row : Row} {n : String} {x : Cell}
    (hall : ∀ p ∈ row, goodCell p.2 = true) (h : lookupCell row n = some x) :
    goodCell x = true := by
  unfold lookupCell at h
  cases hf : List.find? (fun p => p.1 = n) row with
  | none => rw [hf] at h; exact absurd h (by simp)
  | some q =>
    rw [hf] at h
    have hm := List.mem_of_find?_eq_some hf
    have := hall q hm
    simp at h
    rw [← h]
    exact this

/-- Every cell of a reconciled prediction row is a number or a bool. -/
theorem reconcile_good {feats : List String} {s : String} {names : List String}
    {p : String × Cell}
    (h : p ∈ reconcile (getDummies (feats.zip (parseTokens s))) names) :
    goodCell p.2 = true := by
  rw [reconcile_eq] at h
  obtain ⟨c, _, hc⟩ := List.mem_map.mp h
  cases hl : lookupCell (getDummies (feats.zip (parseTokens s))) c with
  | some x =>
    rw [hl] at hc
    have : goodCell x = true := lookupCell_good (fun q hq => getDummies_good hq) hl
    rw [← hc]
    exact this
  | none =>
    rw [hl] at hc
    rw [← hc]
    rfl

/-- Unmatched values one-hot to all zeros under `handle_unknown='ignore'`. -/
theorem catTransform_good {mode : String} {cats : List String} {c : Cell}
    (h : goodCell c = true) :
    catTransform mode cats c = List.replicate cats.length 0 := by
  cases c with
  | real x =>
    unfold catTransform
    simp [List.map_const']
  | boolv b =>
    unfold catTransform
    simp [List.map_const']
  | text s => simp [goodCell] at h
  | na => simp [goodCell] at h

theorem numTransform_good {lib : MLLib} {m v : Rat} {c : Cell}
    (h : goodCell c = true) : ∃ x, numTransform lib m v c = Except.ok x := by
  cases c with
  | real x => exact ⟨_, rfl⟩
  | boolv b => exact ⟨_, rfl⟩
  | text s => simp [goodCell] at h
  | na => exact ⟨_, rfl⟩

theorem pickCols_names {df : Dataset} : ∀ {ns : List String} {cs : List Col},
    pickCols df ns = Except.ok cs → cs.map (fun c => c.name) = ns := by
  intro ns
  induction ns with
  | nil =>
    intro cs h
    unfold pickCols at h
    have : ([] : List Col) = cs := by simpa using h
    simp [← this]
  | cons n ns ih =>
    intro cs h
    unfold pickCols at h
    cases hf : df.col? n with
    | none => rw [hf] at h; exact absurd h (by simp)
    | some c =>
      rw [hf] at h
      cases hrest : pickCols df ns with
      | error e => rw [hrest] at h; exact absurd h (by simp)
      | ok cs2 =>
        rw [hrest] at h
        have hcs : c :: cs2 = cs := by simpa using h
        have hname : c.name = n := by
          have := List.find?_some hf
          simpa using this
        simp [← hcs, hname, ih hrest]

theorem colNames_takeRows (X : Dataset) (is : List Nat) :
    colNames (takeRows X is) = colNames X := by
  simp [colNames, takeRows, List.map_map]

theorem fitPipeline_ok {lib : MLLib} {p : XGBParams} {numF catF : List String}
    {Xtr : Dataset} {ytr : Col} {art : Artifact}
    (h : fitPipeline lib p numF catF Xtr ytr = Except.ok art) :
    art.params = p ∧ art.numericFeatures = numF
    ∧ art.categoricalFeatures = catF ∧ art.featureNamesIn = colNames Xtr
    ∧ art.numStats = fitNumeric Xtr numF ∧ art.catStats = fitCat Xtr catF := by
  unfold fitPipeline at h
  cases hl : getLabels ytr.cells with
  | error e => rw [hl] at h; exact absurd h (by simp)
  | ok labels =>
    simp only [hl] at h
    cases he : encodeRowsIdx lib (fitNumeric Xtr numF) (fitCat Xtr catF) Xtr
        (List.range (nRows Xtr)) with
    | error e => rw [he] at h; exact absurd h (by simp)
    | ok rows =>
      simp only [he] at h
      injection h with h2
      subst h2
      exact ⟨rfl, rfl, rfl, rfl, rfl, rfl⟩

theorem trainModelBody_shape (lib : MLLib) (s : AppState) (df : Dataset)
    (tgt : String) (feats : List String) :
    (trainModelBody lib s df tgt feats).2.uploadedData = s.uploadedData
    ∧ ((trainModelBody lib s df tgt feats).2.model = s.model
      ∨ (∃ nf cf, (trainModelBody lib s df tgt feats).2.model
          = ModelState.unfitted xgbFixed nf cf)
      ∨ ∃ art, (trainModelBody lib s df tgt feats).2.model
          = ModelState.fitted art) := by
  unfold trainModelBody
  obtain ⟨rX, hX⟩ : ∃ r, sliceCols df feats = r := ⟨_, rfl⟩
  cases rX with
  | error e =>
    simp only [hX]
    exact ⟨trivial, Or.inl trivial⟩
  | ok X =>
    simp only [hX]
    obtain ⟨ry, hy⟩ : ∃ r, sliceCol df tgt = r := ⟨_, rfl⟩
    cases ry with
    | error e =>
      simp only [hy]
      exact ⟨trivial, Or.inl trivial⟩
    | ok y =>
      simp only [hy]
      obtain ⟨rsp, hsp⟩ : ∃ r, trainTestSplit lib X y = r := ⟨_, rfl⟩
      cases rsp with
      | error e =>
        simp only [hsp]
        exact ⟨trivial, Or.inl trivial⟩
      | ok sp =>
        simp only [hsp]
        obtain ⟨rfit, hfit⟩ : ∃ r, fitPipeline lib xgbFixed
            ((selectDtypes [DType.num] X).map (fun c => c.name))
            ((selectDtypes [DType.obj] X).map (fun c => c.name))
            sp.xTrain sp.yTrain = r := ⟨_, rfl⟩
        cases rfit with
        | error e =>
          simp only [hfit]
          exact ⟨trivial, Or.inr (Or.inl ⟨_, _, rfl⟩)⟩
        | ok art =>
          simp only [hfit]
          obtain ⟨rrows, hrows⟩ : ∃ r, encodeRowsIdx lib art.numStats
              art.catStats sp.xTest (List.range (nRows sp.xTest)) = r := ⟨_, rfl⟩
          cases rrows with
          | error e =>
            simp only [hrows]
            exact ⟨trivial, Or.inr (Or.inr ⟨_, rfl⟩)⟩
          | ok rows =>
            simp only [hrows]
            obtain ⟨ryv, hyv⟩ : ∃ r, getLabels sp.yTest.cells = r := ⟨_, rfl⟩
            cases ryv with
            | error e =>
              simp only [hyv]
              exact ⟨trivial, Or.inr (Or.inr ⟨_, rfl⟩)⟩
            | ok yv =>
              simp only [hyv]
              exact ⟨trivial, Or.inr (Or.inr ⟨_, rfl⟩)⟩

theorem trainModel_shape (lib : MLLib) (s : AppState) (nc : Option Nat)
    (t : Option String) (f : Option (List String)) :
    (trainModel lib s nc t f).2.uploadedData = s.uploadedData
    ∧ ((trainModel lib s nc t f).2.model = s.model
      ∨ (∃ nf cf, (trainModel lib s nc t f).2.model
          = ModelState.unfitted xgbFixed nf cf)
      ∨ ∃ art, (trainModel lib s nc t f).2.model = ModelState.fitted art) := by
  obtain ⟨d, m⟩ := s
  unfold trainModel
  cases nc with
  | none => exact ⟨rfl, Or.inl rfl⟩
  | some n =>
    cases d with
    | none => exact ⟨rfl, Or.inl rfl⟩
    | some df =>
      cases ht : (t.getD "").isEmpty with
      | true => simp [ht]
      | false =>
        simp only [ht]
        cases hf : (f.getD []).isEmpty with
        | true => simp [hf]
        | false =>
          simp only [hf]
          exact trainModelBody_shape lib ⟨some df, m⟩ df (t.getD "") (f.getD [])

theorem trainModelBody_fst_model_irrel (lib : MLLib) (d : Option Dataset)
    (m1 m2 : ModelState) (df : Dataset) (tgt : String) (feats : List String) :
    (trainModelBody lib ⟨d, m1⟩ df tgt feats).1
      = (trainModelBody lib ⟨d, m2⟩ df tgt feats).1 := by
  unfold trainModelBody
  obtain ⟨rX, hX⟩ : ∃ r, sliceCols df feats = r := ⟨_, rfl⟩
  cases rX with
  | error e => simp only [hX]
  | ok X =>
    simp only [hX]
    obtain ⟨ry, hy⟩ : ∃ r, sliceCol df tgt = r := ⟨_, rfl⟩
    cases ry with
    | error e => simp only [hy]
    | ok y =>
      simp only [hy]
      obtain ⟨rsp, hsp⟩ : ∃ r, trainTestSplit lib X y = r := ⟨_, rfl⟩
      cases rsp with
      | error e => simp only [hsp]
      | ok sp => simp only [hsp]

theorem trainModel_fst_model_irrel (lib : MLLib) (d : Option Dataset)
    (m1 m2 : ModelState) (nc : Option Nat) (t : Option String)
    (f : Option (List String)) :
    (trainModel lib ⟨d, m1⟩ nc t f).1 = (trainModel lib ⟨d, m2⟩ nc t f).1 := by
  unfold trainModel
  cases nc with
  | none => rfl
  | some n =>
    cases d with
    | none => rfl
    | some df =>
      cases ht : (t.getD "").isEmpty with
      | true => simp [ht]
      | false =>
        simp only [ht]
        cases hf : (f.getD []).isEmpty with
        | true => simp [hf]
        | false =>
          simp only [hf]
          exact trainModelBody_fst_model_irrel lib (some df) m1 m2 df
            (t.getD "") (f.getD [])

theorem trainModelBody_success_inv {lib : MLLib} {s : AppState} {df : Dataset}
    {tgt : String} {feats : List String} {r2 : Rat} {s2 : AppState}
    (h : trainModelBody lib s df tgt feats = (TrainMsg.success r2, s2)) :
    ∃ X y sp art, sliceCols df feats = Except.ok X
      ∧ sliceCol df tgt = Except.ok y
      ∧ trainTestSplit lib X y = Except.ok sp
      ∧ fitPipeline lib xgbFixed
          ((selectDtypes [DType.num] X).map (fun c => c.name))
          ((selectDtypes [DType.obj] X).map (fun c => c.name))
          sp.xTrain sp.yTrain = Except.ok art
      ∧ s2 = { s with model := ModelState.fitted art } := by
  unfold trainModelBody at h
  cases hX : sliceCols df feats with
  | error e => simp only [hX] at h; exact absurd h (by simp)
  | ok X =>
    simp only [hX] at h
    cases hy : sliceCol df tgt with
    | error e => simp only [hy] at h; exact absurd h (by simp)
    | ok y =>
      simp only [hy] at h
      cases hsp : trainTestSplit lib X y with
      | error e => simp only [hsp] at h; exact absurd h (by simp)
      | ok sp =>
        simp only [hsp] at h
        cases hfit : fitPipeline lib xgbFixed
            ((selectDtypes [DType.num] X).map (fun c => c.name))
            ((selectDtypes [DType.obj] X).map (fun c => c.name))
            sp.xTrain sp.yTrain with
        | error e => simp only [hfit] at h; exact absurd h (by simp)
        | ok art =>
          simp only [hfit] at h
          cases hrows : encodeRowsIdx lib art.numStats art.catStats
              sp.xTest (List.range (nRows sp.xTest)) with
          | error e => simp only [hrows] at h; exact absurd h (by simp)
          | ok rows =>
            simp only [hrows] at h
            cases hyv : getLabels sp.yTest.cells with
            | error e => simp only [hyv] at h; exact absurd h (by simp)
            | ok yv =>
              simp only [hyv] at h
              have hs2 := ((Prod.mk.injEq _ _ _ _).mp h).2.symm
              exact ⟨X, y, sp, art, rfl, rfl, hsp, hfit, hs2⟩

theorem trainModel_success_inv {lib : MLLib} {s : AppState} {n : Nat}
    {t : Option String} {f : Option (List String)} {r2 : Rat} {s2 : AppState}
    (h : trainModel lib s (some n) t f = (TrainMsg.success r2, s2)) :
    ∃ df X y sp art, s.uploadedData = some df
      ∧ sliceCols df (f.getD []) = Except.ok X
      ∧ sliceCol df (t.getD "") = Except.ok y
      ∧ trainTestSplit lib X y = Except.ok sp
      ∧ fitPipeline lib xgbFixed
          ((selectDtypes [DType.num] X).map (fun c => c.name))
          ((selectDtypes [DType.obj] X).map (fun c => c.name))
          sp.xTrain sp.yTrain = Except.ok art
      ∧ s2 = { s with model := ModelState.fitted art } := by
  unfold trainModel at h
  cases hd : s.uploadedData with
  | none => simp only [hd] at h; exact absurd h (by simp)
  | some df =>
    simp only [hd] at h
    cases ht : (t.getD "").isEmpty with
    | true => simp only [ht] at h; exact absurd h (by simp)
    | false =>
      simp only [ht] at h
      cases hf : (f.getD []).isEmpty with
      | true => simp only [hf] at h; exact absurd h (by simp)
      | false =>
        simp only [hf] at h
        obtain ⟨X, y, sp, art, hX, hy, hsp, hfit, hs2⟩ :=
          trainModelBody_success_inv h
        rw [hd] at hs2
        exact ⟨df, X, y, sp, art, rfl, hX, hy, hsp, hfit, hs2⟩

-- _______________Claim theorems_____________________________

/-- C5: for every predict call with a non-empty raw text and non-empty
feature selection whose comma-split token count differs from the selected
feature count, the call returns the named failure string reporting the
expected feature count and the received token count, and the result is
independent of the model state and of the library behaviour (the model is
never invoked and nothing is truncated). -/
theorem C5_mismatch_failure (lib lib2 : MLLib) (ms ms2 : ModelState) (n : Nat)
    (raw : String) (feats : List String)
    (hraw : raw.isEmpty = false) (hfeats : feats.isEmpty = false)
    (hcount : (parseTokens raw).length ≠ feats.length) :
    makePrediction lib ms (some n) (some raw) (some feats)
        = "Error: Expected " ++ toString feats.length ++ " features, but got "
          ++ toString (parseTokens raw).length ++ "."
      ∧ makePrediction lib ms (some n) (some raw) (some feats)
          = makePrediction lib2 ms2 (some n) (some raw) (some feats) := by
  constructor
  · unfold makePrediction
    simp [hraw, hfeats, hcount]
  · unfold makePrediction
    simp [hraw, hfeats, hcount]

/-- Witness for C5 at the example of the spec: three selected features but
only two tokens. -/
theorem C5_mismatch_failure_witness :
    makePrediction exLib ModelState.noModel (some 1) (some "1,2")
        (some ["a", "b", "c"])
      = "Error: Expected 3 features, but got 2."
    ∧ makePrediction exLib ModelState.noModel (some 1) (some "1,2")
        (some ["a", "b", "c"])
      = makePrediction exLib (ModelState.fitted exArtOld) (some 1) (some "1,2")
          (some ["a", "b", "c"]) := by
  have h := C5_mismatch_failure exLib exLib ModelState.noModel
    (ModelState.fitted exArtOld) 1 "1,2" ["a", "b", "c"] rfl rfl (by decide)
  refine ⟨?_, h.2⟩
  rw [h.1]
  rfl

/-- C6: each violated train precondition (no dataset, target unset, empty
feature selection) returns its own descriptive failure outcome with the state
untouched (so no fitting is attempted), and the three rendered failure
strings are pairwise distinct. -/
theorem C6_preconditions (lib : MLLib) (s : AppState) (n : Nat)
    (t : Option String) (f : Option (List String)) :
    (s.uploadedData = none →
      trainModel lib s (some n) t f = (TrainMsg.noData, s))
    ∧ (∀ df, s.uploadedData = some df → (t.getD "").isEmpty = true →
        trainModel lib s (some n) t f = (TrainMsg.noTarget, s))
    ∧ (∀ df, s.uploadedData = some df → (t.getD "").isEmpty = false →
        (f.getD []).isEmpty = true →
        trainModel lib s (some n) t f = (TrainMsg.noFeatures, s))
    ∧ renderTrainMsg TrainMsg.noData ≠ renderTrainMsg TrainMsg.noTarget
    ∧ renderTrainMsg TrainMsg.noData ≠ renderTrainMsg TrainMsg.noFeatures
    ∧ renderTrainMsg TrainMsg.noTarget ≠ renderTrainMsg TrainMsg.noFeatures := by
  refine ⟨?_, ?_, ?_, by decide, by decide, by decide⟩
  · intro h
    unfold trainModel
    simp [h]
  · intro df h ht
    unfold trainModel
    simp [h, ht]
  · intro df h ht hf
    unfold trainModel
    simp [h, ht, hf]

/-- Witness for C6: the three precondition failures at concrete states. -/
theorem C6_preconditions_witness :
    trainModel exLib ⟨none, ModelState.noModel⟩ (some 1) (some "price")
        (some ["size"])
      = (TrainMsg.noData, ⟨none, ModelState.noModel⟩)
    ∧ trainModel exLib ⟨some exDs, ModelState.noModel⟩ (some 1) none
        (some ["size"])
      = (TrainMsg.noTarget, ⟨some exDs, ModelState.noModel⟩)
    ∧ trainModel exLib ⟨some exDs, ModelState.noModel⟩ (some 1) (some "price")
        (some [])
      = (TrainMsg.noFeatures, ⟨some exDs, ModelState.noModel⟩) := by
  refine ⟨?_, ?_, ?_⟩
  · exact (C6_preconditions exLib ⟨none, ModelState.noModel⟩ 1 (some "price")
      (some ["size"])).1 rfl
  · exact (C6_preconditions exLib ⟨some exDs, ModelState.noModel⟩ 1 none
      (some ["size"])).2.1 exDs rfl rfl
  · exact (C6_preconditions exLib ⟨some exDs, ModelState.noModel⟩ 1
      (some "price") (some [])).2.2.1 exDs rfl rfl rfl

/-- C8: every ingest call either leaves the app state exactly as it was and
returns the no-file prompt or a human-readable error string, or replaces the
dataset store wholesale by the newly parsed frame and reports the upload;
this holds for every behaviour of the decode-and-parse chain. -/
theorem C8_upload_atomic (dec : String → Except String Dataset) (s : AppState)
    (contents : Option String) (fn : String) :
    ((handleUpload dec s contents fn).2 = s
      ∧ ((handleUpload dec s contents fn).1 = "No file uploaded."
        ∨ ∃ e, (handleUpload dec s contents fn).1 = "Error reading file: " ++ e))
    ∨ (∃ df, (handleUpload dec s contents fn).2
          = { s with uploadedData := some df }
        ∧ (handleUpload dec s contents fn).1
            = "Uploaded file: " ++ fn ++ " (Rows: " ++ toString (nRows df)
              ++ ", Columns: " ++ toString df.cols.length ++ ")") := by
  cases contents with
  | none => exact Or.inl ⟨rfl, Or.inl rfl⟩
  | some c =>
    by_cases hc : c = ""
    · subst hc
      exact Or.inl ⟨rfl, Or.inl rfl⟩
    · cases hu : unpack2 (c.splitOn ",") with
      | error e =>
        refine Or.inl ⟨?_, Or.inr ⟨e, ?_⟩⟩ <;>
          simp [handleUpload, if_neg hc, hu]
      | ok pr =>
        obtain ⟨a, b⟩ := pr
        cases hd : dec b with
        | error e =>
          refine Or.inl ⟨?_, Or.inr ⟨e, ?_⟩⟩ <;>
            simp [handleUpload, if_neg hc, hu, hd]
        | ok df =>
          refine Or.inr ⟨df, ?_, ?_⟩ <;>
            simp [handleUpload, if_neg hc, hu, hd]

theorem find?_filter_of_find? {A} (p q : A → Bool) {l : List A} {c : A}
    (h : l.find? p = some c) (hq : q c = true) :
    (l.filter q).find? p = some c := by
  induction l with
  | nil => simp at h
  | cons x xs ih =>
    cases hp : p x with
    | true =>
      rw [List.find?_cons_of_pos _ hp] at h
      have hx : x = c := by
        simpa using h
      subst hx
      rw [List.filter_cons_of_pos hq, List.find?_cons_of_pos _ hp]
    | false =>
      rw [List.find?_cons_of_neg _ (by simp [hp])] at h
      by_cases hqx : q x = true
      · rw [List.filter_cons_of_pos hqx,
          List.find?_cons_of_neg _ (by simp [hp])]
        exact ih h
      · rw [List.filter_cons_of_neg (by simpa using hqx)]
        exact ih h

theorem col?_numeric_of {df : Dataset} {tgt : String} {tcol : Col}
    (h : df.col? tgt = some tcol) (hd : tcol.dtype = DType.num) :
    (Dataset.mk (selectDtypes [DType.num] df)).col? tgt = some tcol := by
  unfold Dataset.col? at h ⊢
  unfold selectDtypes
  exact find?_filter_of_find? _ _ h (by simp [hd])

/-- C4 counterexample: with a dataset loaded and a valid numeric target
chosen, a categorical radio value naming no column of the loaded dataset (for
example one left over from a previously loaded dataset) makes the report
operation raise a KeyError that nothing catches, so the report operation does
not catch all internal exceptions for every combination of loaded dataset,
chosen target and chosen categorical column. -/
theorem C4_counterexample :
    updateBarcharts exLib (some exDs) (some "price") (some "ghost")
      = Except.error "KeyError: ghost" := by
  rfl

/-- C4 amended: ingest, target-list, feature-list, train and predict are
total and return failure values (their embeddings above return strings), and
the report operation returns empty results when no dataset is loaded or no
target is chosen and raises no exception whenever the chosen target is a
numeric column of the loaded dataset and the chosen categorical column is
falsy or an existing column; but a stale target or categorical column not in
the dataset propagates a KeyError (see the counterexample). -/
theorem C4_amended (lib : MLLib) (df : Dataset) (t c : Option String) :
    updateBarcharts lib none t c = Except.ok ([], none, none)
    ∧ updateBarcharts lib (some df) none c = Except.ok ([], none, none)
    ∧ ∀ tgt tcol, df.col? tgt = some tcol → tcol.dtype = DType.num →
        (truthy c = false ∨ ∃ sc, c = some sc ∧ (df.col? sc).isSome = true) →
        ∃ out, updateBarcharts lib (some df) (some tgt) c = Except.ok out := by
  refine ⟨rfl, rfl, ?_⟩
  intro tgt tcol htgt hdt hc
  have hcat : ∃ cchart, (if truthy c
      then (groupbyMean df (c.getD "") tgt).map Option.some
      else Except.ok none) = Except.ok cchart := by
    cases htr : truthy c with
    | false => exact ⟨none, by rw [if_neg (by simp [htr])]⟩
    | true =>
      rcases hc with hfalse | ⟨sc, hsc, hcol⟩
      · rw [htr] at hfalse
        exact absurd hfalse (by simp)
      · subst hsc
        cases hk : df.col? sc with
        | none => rw [hk] at hcol; simp at hcol
        | some kcol =>
          have hg : ∃ g, groupbyMean df sc tgt = Except.ok g := by
            unfold groupbyMean
            rw [hk, htgt]
            exact ⟨_, rfl⟩
          obtain ⟨g, hg⟩ := hg
          refine ⟨some g, ?_⟩
          rw [if_pos (by simp [htr])]
          simp only [Option.getD_some, hg]
          rfl
  obtain ⟨cchart, hcc⟩ := hcat
  have hcorr : ∃ cr2, (if ((Dataset.mk (selectDtypes [DType.num] df)).cols.isEmpty
        || decide (nRows (Dataset.mk (selectDtypes [DType.num] df)) = 0)) = true
      then Except.ok none
      else Except.map some
        (corrSeries lib (Dataset.mk (selectDtypes [DType.num] df)) tgt))
      = Except.ok cr2 := by
    by_cases hne : (((Dataset.mk (selectDtypes [DType.num] df)).cols.isEmpty
        || decide (nRows (Dataset.mk (selectDtypes [DType.num] df)) = 0)) = true)
    · exact ⟨none, by rw [if_pos hne]⟩
    · have hcr : ∃ cr, corrSeries lib (Dataset.mk (selectDtypes [DType.num] df))
          tgt = Except.ok cr := by
        unfold corrSeries
        rw [col?_numeric_of htgt hdt]
        exact ⟨_, rfl⟩
      obtain ⟨cr, hcr⟩ := hcr
      exact ⟨some cr, by rw [if_neg hne, hcr]; rfl⟩
  obtain ⟨cr2, hcr2⟩ := hcorr
  have hdef : updateBarcharts lib (some df) (some tgt) c
      = (match (if truthy c
            then (groupbyMean df (c.getD "") tgt).map Option.some
            else Except.ok none) with
        | Except.error e => Except.error e
        | Except.ok categoryChart =>
          match (if ((Dataset.mk (selectDtypes [DType.num] df)).cols.isEmpty
                || decide (nRows (Dataset.mk (selectDtypes [DType.num] df)) = 0))
                = true
              then Except.ok none
              else Except.map some
                (corrSeries lib (Dataset.mk (selectDtypes [DType.num] df)) tgt)) with
          | Except.error e => Except.error e
          | Except.ok corrChart =>
            Except.ok ((selectDtypes [DType.obj] df).map (fun c => c.name),
              categoryChart, corrChart)) := rfl
  rw [hdef, hcc, hcr2]
  exact ⟨_, rfl⟩

/-- Witness for C4 amended: the empty-input cases and a fully valid report
call on the example dataset. -/
theorem C4_amended_witness :
    updateBarcharts exLib none (some "price") none = Except.ok ([], none, none)
    ∧ updateBarcharts exLib (some exDs) none none = Except.ok ([], none, none)
    ∧ ∃ out, updateBarcharts exLib (some exDs) (some "price") (some "color")
        = Except.ok out := by
  refine ⟨(C4_amended exLib exDs (some "price") none).1,
    (C4_amended exLib exDs none none).2.1, ?_⟩
  exact (C4_amended exLib exDs (some "price") (some "color")).2.2 "price"
    ⟨"price", DType.num, [Cell.real 1, Cell.real 2, Cell.real 3, Cell.real 4,
      Cell.real 5]⟩ (by rfl) rfl
    (Or.inr ⟨"color", rfl, by rfl⟩)

/-- C9 counterexample: the bool column `flag` of a loaded dataset is a column
name of the dataset but is absent from the feature selection surface, so the
surface does not expose the list of ALL column names. -/
theorem C9_counterexample :
    "flag" ∈ colNames exDsBool
    ∧ "flag" ∉ getOptions (some exDsBool)
    ∧ getOptions (some exDsBool) ≠ colNames exDsBool := by
  decide

/-- C9 amended: the feature selection surface exposes exactly the columns of
numeric, object or category dtype (numeric first); columns of any other
dtype, such as bool or datetime, are omitted; the target surface exposes
exactly the numeric columns; both surfaces are empty when no dataset is
loaded. -/
theorem C9_amended (df : Dataset) :
    (∀ n, n ∈ getOptions (some df) ↔ ∃ c ∈ df.cols, c.name = n
        ∧ (c.dtype = DType.num ∨ c.dtype = DType.obj ∨ c.dtype = DType.catg))
    ∧ (∀ n, n ∈ updateTargetDropdown (some df) ↔ ∃ c ∈ df.cols, c.name = n
        ∧ c.dtype = DType.num)
    ∧ getOptions none = [] ∧ updateTargetDropdown none = [] := by
  refine ⟨?_, ?_, rfl, rfl⟩
  · intro n
    simp only [getOptions, selectDtypes, List.mem_append, List.mem_map,
      List.mem_filter, decide_eq_true_eq, List.mem_cons,
      List.not_mem_nil, or_false, List.mem_singleton]
    constructor
    · rintro (⟨c, ⟨hc, hd⟩, hn⟩ | ⟨c, ⟨hc, hd⟩, hn⟩)
      · exact ⟨c, hc, hn, Or.inl hd⟩
      · rcases hd with hd | hd
        · exact ⟨c, hc, hn, Or.inr (Or.inl hd)⟩
        · exact ⟨c, hc, hn, Or.inr (Or.inr hd)⟩
    · rintro ⟨c, hc, hn, hd | hd | hd⟩
      · exact Or.inl ⟨c, ⟨hc, hd⟩, hn⟩
      · exact Or.inr ⟨c, ⟨hc, Or.inl hd⟩, hn⟩
      · exact Or.inr ⟨c, ⟨hc, Or.inr hd⟩, hn⟩
  · intro n
    simp only [updateTargetDropdown, selectDtypes, List.mem_map,
      List.mem_filter, decide_eq_true_eq, List.mem_singleton,
      List.mem_cons, List.not_mem_nil, or_false]
    constructor
    · rintro ⟨c, ⟨hc, hd⟩, hn⟩
      exact ⟨c, hc, hn, hd⟩
    · rintro ⟨c, hc, hn, hd⟩
      exact ⟨c, ⟨hc, hd⟩, hn⟩

theorem sliceCols_names {df : Dataset} {names : List String} {X : Dataset}
    (h : sliceCols df names = Except.ok X) : colNames X = names := by
  unfold sliceCols at h
  cases hp : pickCols df names with
  | error e => rw [hp] at h; exact absurd h (by simp)
  | ok cs =>
    rw [hp] at h
    have h2 : Dataset.mk cs = X := by simpa using h
    rw [← h2]
    exact pickCols_names hp

theorem trainTestSplit_names {lib : MLLib} {X : Dataset} {y : Col}
    {sp : SplitOut} (h : trainTestSplit lib X y = Except.ok sp) :
    colNames sp.xTrain = colNames X ∧ colNames sp.xTest = colNames X := by
  unfold trainTestSplit at h
  by_cases hn : (y.cells.length - (y.cells.length + 4) / 5 = 0)
  · rw [if_pos hn] at h
    exact absurd h (by simp)
  · rw [if_neg hn] at h
    simp only [Except.ok.injEq] at h
    rw [← h]
    exact ⟨colNames_takeRows X _, colNames_takeRows X _⟩

/-- C7: training twice in a row with the identical dataset, target and
feature selection returns an identical message (hence an identical
QualityScore): the result of train does not depend on the model component of
the state, which is all a first run can change; and any artifact installed by
a successful run carries exactly the fixed hyperparameters of the source (200
trees, depth 3, learning rate 0.3, full subsampling, seed 42), the split seed
42 being fixed in `trainTestSplit`. -/
theorem C7_determinism (lib : MLLib) (s : AppState) (nc : Option Nat)
    (t : Option String) (f : Option (List String)) :
    (trainModel lib s nc t f).1
        = (trainModel lib (trainModel lib s nc t f).2 nc t f).1
    ∧ ∀ r2 s2 art, trainModel lib s nc t f = (TrainMsg.success r2, s2) →
        s2.model = ModelState.fitted art → art.params = xgbFixed := by
  constructor
  · obtain ⟨d, m⟩ := s
    have h1 : (trainModel lib ⟨d, m⟩ nc t f).2.uploadedData = d :=
      (trainModel_shape lib ⟨d, m⟩ nc t f).1
    have h2 : (⟨d, (trainModel lib ⟨d, m⟩ nc t f).2.model⟩ : AppState)
        = (trainModel lib ⟨d, m⟩ nc t f).2 := by
      cases hres : (trainModel lib ⟨d, m⟩ nc t f).2 with
      | mk du mo =>
        rw [hres] at h1
        have h4 : du = d := h1
        subst h4
        rfl
    rw [← h2]
    exact trainModel_fst_model_irrel lib d m _ nc t f
  · intro r2 s2 art h hart
    cases nc with
    | none =>
      exact absurd h (by simp [trainModel])
    | some n =>
      obtain ⟨df, X, y, sp, art2, hd, hX, hy, hsp, hfit, hs2⟩ :=
        trainModel_success_inv h
      rw [hs2] at hart
      have hae : art2 = art := by simpa using hart
      subst hae
      exact (fitPipeline_ok hfit).1

/-- Witness for C7 at the example dataset: repeating the training call
returns the same message, and the installed artifact carries the fixed
hyperparameters. -/
theorem C7_determinism_witness :
    (trainModel exLib ⟨some exDs, ModelState.noModel⟩ (some 1) (some "price")
        (some ["size", "color"])).1
      = (trainModel exLib (trainModel exLib ⟨some exDs, ModelState.noModel⟩
          (some 1) (some "price") (some ["size", "color"])).2 (some 1)
          (some "price") (some ["size", "color"])).1
    ∧ exArt.params = xgbFixed := by
  have h := C7_determinism exLib ⟨some exDs, ModelState.noModel⟩ (some 1)
    (some "price") (some ["size", "color"])
  refine ⟨h.1, ?_⟩
  exact h.2 1 exTrain.2 exArt (Prod.ext (by decide) rfl) rfl

/-- C3 counterexample: with an old fitted model installed, a train call whose
fit raises (the stale target column `name` is textual, so the regressor
rejects the labels) returns a caught failure message but leaves the freshly
assigned unfitted pipeline as the process-wide model, not the previous model:
predict answered with a prediction before the failed call and answers with an
error after it. -/
theorem C3_counterexample :
    (trainModel exLib ⟨some exDsBad, ModelState.fitted exArtOld⟩ (some 1)
        (some "name") (some ["size"])).1
      = TrainMsg.trainError "ValueError: label must consist of finite numbers"
    ∧ (trainModel exLib ⟨some exDsBad, ModelState.fitted exArtOld⟩ (some 1)
        (some "name") (some ["size"])).2.model
      = ModelState.unfitted xgbFixed ["size"] []
    ∧ makePrediction exLib (ModelState.fitted exArtOld) (some 1) (some "5")
        (some ["size"]) = "Prediction: 0"
    ∧ makePrediction exLib (ModelState.unfitted xgbFixed ["size"] []) (some 1)
        (some "5") (some ["size"])
      = "Error: the model object has no attribute feature_names_in_" := by
  exact ⟨rfl, rfl, rfl, rfl⟩

/-- C3 amended: every exception during the training steps is caught and
converted into a failure message, the dataset store is never touched, and the
model global afterwards is the previous model, an unfitted freshly assigned
pipeline, or a fitted pipeline — but not necessarily the previous model: the
replacement is not transactional, because a failure in fitting or scoring
happens after `model = Pipeline(...)` has replaced the global (see the
counterexample). -/
theorem C3_amended (lib : MLLib) (s : AppState) (nc : Option Nat)
    (t : Option String) (f : Option (List String)) (e : String)
    (h : (trainModel lib s nc t f).1 = TrainMsg.trainError e) :
    (trainModel lib s nc t f).2.uploadedData = s.uploadedData
    ∧ ((trainModel lib s nc t f).2.model = s.model
      ∨ (∃ nf cf, (trainModel lib s nc t f).2.model
          = ModelState.unfitted xgbFixed nf cf)
      ∨ ∃ art, (trainModel lib s nc t f).2.model = ModelState.fitted art)
    ∧ renderTrainMsg ((trainModel lib s nc t f).1)
      = "Error during training: " ++ e := by
  refine ⟨(trainModel_shape lib s nc t f).1,
    (trainModel_shape lib s nc t f).2, ?_⟩
  rw [h]
  rfl

/-- Witness for C3 amended at the failing-fit scenario. -/
theorem C3_amended_witness :
    (trainModel exLib ⟨some exDsBad, ModelState.fitted exArtOld⟩ (some 1)
        (some "name") (some ["size"])).2.uploadedData = some exDsBad
    ∧ renderTrainMsg ((trainModel exLib
        ⟨some exDsBad, ModelState.fitted exArtOld⟩ (some 1) (some "name")
        (some ["size"])).1)
      = "Error during training: ValueError: label must consist of finite numbers" := by
  have h := C3_amended exLib ⟨some exDsBad, ModelState.fitted exArtOld⟩
    (some 1) (some "name") (some ["size"])
    "ValueError: label must consist of finite numbers" rfl
  exact ⟨h.1, h.2.2⟩

/-- C2 counterexample: after the example training run, the reconciled predict
row has exactly the raw input columns `feature_names_in_` = [size, color],
which differ from the ordered output-column list of the fitted preprocessing
step [size, color_blue, color_red]; so the predict call does not reconcile
against the EncodedSchema the claim describes. -/
theorem C2_counterexample :
    exArt.featureNamesIn = ["size", "color"]
    ∧ exRowSeen.map (fun p => p.1) = ["size", "color"]
    ∧ specEncodedSchema exArt = ["size", "color_blue", "color_red"]
    ∧ exRowSeen.map (fun p => p.1) ≠ specEncodedSchema exArt := by
  exact ⟨rfl, rfl, rfl, by decide⟩

/-- C2 amended: training records as the reconciliation target the raw input
column list `model.feature_names_in_`, which equals the selected feature
list, not the output-column list of the fitted preprocessing step; predict
reconciles the expanded single row against that list exactly as the claim
describes the mechanism: every name absent from the expanded columns is
inserted with value 0, the columns are selected and reordered strictly to
that order, and expanded columns not in the list are dropped. -/
theorem C2_amended (lib : MLLib) (s : AppState) (n : Nat) (t : Option String)
    (f : Option (List String)) (r2 : Rat) (s2 : AppState)
    (h : trainModel lib s (some n) t f = (TrainMsg.success r2, s2)) :
    (∃ art, s2.model = ModelState.fitted art
      ∧ art.featureNamesIn = f.getD [])
    ∧ ∀ (row : Row) (names : List String),
        reconcile row names
          = names.map (fun c => (c, (lookupCell row c).getD (Cell.real 0))) := by
  refine ⟨?_, fun row names => reconcile_eq row names⟩
  obtain ⟨df, X, y, sp, art, hd, hX, hy, hsp, hfit, hs2⟩ :=
    trainModel_success_inv h
  refine ⟨art, by rw [hs2], ?_⟩
  rw [(fitPipeline_ok hfit).2.2.2.1, (trainTestSplit_names hsp).1,
    sliceCols_names hX]

/-- Witness for C2 amended: the example training run records [size, color],
and a concrete reconciliation inserts the missing size and color columns with
value 0 while dropping the color_red dummy column. -/
theorem C2_amended_witness :
    (∃ art, exTrain.2.model = ModelState.fitted art
      ∧ art.featureNamesIn = ["size", "color"])
    ∧ reconcile [("color_red", Cell.boolv true)] ["size", "color"]
      = [("size", Cell.real 0), ("color", Cell.real 0)] := by
  have h := C2_amended exLib ⟨some exDs, ModelState.noModel⟩ 1 (some "price")
    (some ["size", "color"]) 1 exTrain.2 (Prod.ext (by decide) rfl)
  refine ⟨h.1, ?_⟩
  rw [h.2 [("color_red", Cell.boolv true)] ["size", "color"]]
  rfl

theorem encodeNum_ok (lib : MLLib) :
    ∀ (stats : List (String × Rat × Rat)) (get : String → Option Cell),
    (∀ st ∈ stats, ∃ c, get st.1 = some c ∧ goodCell c = true) →
    ∃ xs, encodeNum lib stats get = Except.ok xs := by
  intro stats
  induction stats with
  | nil => exact fun get _ => ⟨[], rfl⟩
  | cons st sts ih =>
    intro get h
    obtain ⟨c, hc, hg⟩ := h st (List.mem_cons_self st sts)
    obtain ⟨x, hx⟩ := @numTransform_good lib st.2.1 st.2.2 _ hg
    obtain ⟨xs, hxs⟩ := ih get (fun q hq => h q (List.mem_cons_of_mem st hq))
    exact ⟨x :: xs, by simp only [encodeNum, hc, hx, hxs]⟩

theorem encodeCats_ok :
    ∀ (css : List (String × String × List String)) (get : String → Option Cell),
    (∀ cs ∈ css, ∃ b, encodeCatBlock cs get = Except.ok b) →
    ∃ ys, encodeCats css get = Except.ok ys := by
  intro css
  induction css with
  | nil => exact fun get _ => ⟨[], rfl⟩
  | cons cs css ih =>
    intro get h
    obtain ⟨b, hb⟩ := h cs (List.mem_cons_self cs css)
    obtain ⟨ys, hys⟩ := ih get (fun q hq => h q (List.mem_cons_of_mem cs hq))
    exact ⟨b ++ ys, by simp only [encodeCats, hb, hys]⟩

theorem lookup_reconcile_good {feats : List String} {raw : String}
    {names : List String} {f : String} (hf : f ∈ names) :
    ∃ c, lookupCell (reconcile (getDummies (feats.zip (parseTokens raw)))
        names) f = some c ∧ goodCell c = true := by
  rw [reconcile_eq, lookupCell_map_self _ hf]
  refine ⟨_, rfl, ?_⟩
  cases hl : lookupCell (getDummies (feats.zip (parseTokens raw))) f with
  | some x =>
    exact lookupCell_good (fun q hq => getDummies_good hq) hl
  | none => rfl

/-- C1 amended: for every predict call that passes the token-count check
against a fitted model, the one-hot block of every categorical feature in the
encoded row fed to the regressor is all zeros — whether the value typed was
seen at training time or not — because the reconciliation against the raw
`feature_names_in_` list discards all dummy columns and refills the raw
categorical columns with 0; and the call does not raise: it returns a
prediction string. -/
theorem C1_amended (lib : MLLib) (art : Artifact) (n : Nat) (raw : String)
    (feats : List String)
    (hraw : raw.isEmpty = false) (hfeats : feats.isEmpty = false)
    (hcount : (parseTokens raw).length = feats.length)
    (hnum : ∀ st ∈ art.numStats, st.1 ∈ art.featureNamesIn)
    (hcat : ∀ cs ∈ art.catStats, cs.1 ∈ art.featureNamesIn) :
    (∀ cs ∈ art.catStats,
        encodeCatBlock cs (lookupCell (reconcile
            (getDummies (feats.zip (parseTokens raw))) art.featureNamesIn))
          = Except.ok (List.replicate cs.2.2.length 0))
    ∧ ∃ p : Rat, makePrediction lib (ModelState.fitted art) (some n) (some raw)
        (some feats) = "Prediction: " ++ toString p := by
  have hblocks : ∀ cs ∈ art.catStats,
      encodeCatBlock cs (lookupCell (reconcile
          (getDummies (feats.zip (parseTokens raw))) art.featureNamesIn))
        = Except.ok (List.replicate cs.2.2.length 0) := by
    intro cs hcs
    obtain ⟨c, hc, hg⟩ := @lookup_reconcile_good feats raw _ _ (hcat cs hcs)
    unfold encodeCatBlock
    simp only [hc, catTransform_good hg]
  refine ⟨hblocks, ?_⟩
  obtain ⟨xs, hxs⟩ := encodeNum_ok lib art.numStats
    (lookupCell (reconcile (getDummies (feats.zip (parseTokens raw)))
      art.featureNamesIn))
    (fun st hst => lookup_reconcile_good (hnum st hst))
  obtain ⟨ys, hys⟩ := encodeCats_ok art.catStats
    (lookupCell (reconcile (getDummies (feats.zip (parseTokens raw)))
      art.featureNamesIn))
    (fun cs hcs => ⟨_, hblocks cs hcs⟩)
  refine ⟨art.predictFn (xs ++ ys), ?_⟩
  have hpipe : pipePredict lib art (reconcile (getDummies
      (feats.zip (parseTokens raw))) art.featureNamesIn)
      = Except.ok (art.predictFn (xs ++ ys)) := by
    unfold pipePredict
    rw [if_neg (fun hh => hh (reconcile_names _ _))]
    unfold encodeWith
    simp only [hxs, hys]
  unfold makePrediction
  rw [if_neg (by simp [hraw, hfeats])]
  simp only [Option.getD_some]
  rw [if_neg (fun hh => hh hcount)]
  simp only [hpipe]

/-- C1 counterexample: on the spec scenario the value red is in the fitted
vocabulary of the categorical feature color, yet the predict call for
"10,red" produces an all-zero one-hot block for color — no non-zero
contribution — and in fact builds exactly the same reconciled row and answer
as the unseen value "10,green". -/
theorem C1_counterexample :
    exArt.catStats = [("color", "blue", ["blue", "red"])]
    ∧ encodeCats exArt.catStats (lookupCell exRowSeen) = Except.ok [0, 0]
    ∧ exRowSeen = exRowUnseen
    ∧ makePrediction exLib (ModelState.fitted exArt) (some 1) (some "10,red")
        (some ["size", "color"])
      = makePrediction exLib (ModelState.fitted exArt) (some 1)
          (some "10,green") (some ["size", "color"]) := by
  exact ⟨by decide, rfl, by decide, by decide⟩

/-- Witness for C1 amended at the spec scenario. -/
theorem C1_amended_witness :
    encodeCatBlock ("color", "blue", ["blue", "red"]) (lookupCell exRowSeen)
      = Except.ok [0, 0]
    ∧ ∃ p : Rat, makePrediction exLib (ModelState.fitted exArt) (some 1)
        (some "10,red") (some ["size", "color"]) = "Prediction: " ++ toString p := by
  have h := C1_amended exLib exArt 1 "10,red" ["size", "color"] rfl rfl
    (by decide) (by decide) (by decide)
  exact ⟨h.1 ("color", "blue", ["blue", "red"]) (by decide), h.2⟩

theorem fitNumeric_names {Xtr : Dataset} {names : List String}
    {st : String × Rat × Rat} (h : st ∈ fitNumeric Xtr names) :
    st.1 ∈ names := by
  unfold fitNumeric at h
  obtain ⟨f, hf, hsome⟩ := List.mem_filterMap.mp h
  cases hc : Xtr.col? f with
  | none => rw [hc] at hsome; simp at hsome
  | some c =>
    simp only [hc] at hsome
    by_cases he : (realCells c).isEmpty = true
    · rw [if_pos he] at hsome
      simp at hsome
    · rw [if_neg he] at hsome
      have h2 := (Option.some.injEq _ _).mp hsome
      rw [← h2]
      exact hf

theorem fitCat_names {Xtr : Dataset} {names : List String}
    {cs : String × String × List String} (h : cs ∈ fitCat Xtr names) :
    cs.1 ∈ names := by
  unfold fitCat at h
  obtain ⟨f, hf, hsome⟩ := List.mem_filterMap.mp h
  cases hc : Xtr.col? f with
  | none => rw [hc] at hsome; simp at hsome
  | some c =>
    simp only [hc] at hsome
    cases hm : modeText (textCells c) with
    | none => rw [hm] at hsome; simp at hsome
    | some m =>
      simp only [hm] at hsome
      have h2 := (Option.some.injEq _ _).mp hsome
      rw [← h2]
      exact hf

/-- C10: a train call that passes its preconditions and whose stages succeed
partitions the selected features by dtype on the sliced matrix: exactly the
numeric-dtyped columns enter the numeric transformer and exactly the
object-dtyped columns enter the categorical transformer; a selected column
of any other dtype (bool, datetime, category) belongs to neither transformer
list and to neither set of fitted transformer statistics — it is silently
dropped from the model input — and the call still returns the success
message with the fitted artifact installed. -/
theorem C10_dtype_partition (lib : MLLib) (df : Dataset) (m : ModelState)
    (n : Nat) (tgt : String) (feats : List String) (X : Dataset) (y : Col)
    (sp : SplitOut) (art : Artifact) (rows : List (List Rat)) (yv : List Rat)
    (htgt : tgt.isEmpty = false) (hfeats : feats.isEmpty = false)
    (hX : sliceCols df feats = Except.ok X)
    (hy : sliceCol df tgt = Except.ok y)
    (hsp : trainTestSplit lib X y = Except.ok sp)
    (hfit : fitPipeline lib xgbFixed
        ((selectDtypes [DType.num] X).map (fun c => c.name))
        ((selectDtypes [DType.obj] X).map (fun c => c.name))
        sp.xTrain sp.yTrain = Except.ok art)
    (hrows : encodeRowsIdx lib art.numStats art.catStats sp.xTest
        (List.range (nRows sp.xTest)) = Except.ok rows)
    (hyv : getLabels sp.yTest.cells = Except.ok yv)
    (hnd : (colNames X).Nodup) :
    trainModel lib ⟨some df, m⟩ (some n) (some tgt) (some feats)
        = (TrainMsg.success (r2score yv (rows.map art.predictFn)),
            ⟨some df, ModelState.fitted art⟩)
    ∧ art.numericFeatures = (selectDtypes [DType.num] X).map (fun c => c.name)
    ∧ art.categoricalFeatures = (selectDtypes [DType.obj] X).map (fun c => c.name)
    ∧ ∀ c ∈ X.cols, c.dtype ≠ DType.num → c.dtype ≠ DType.obj →
        c.name ∉ art.numericFeatures ∧ c.name ∉ art.categoricalFeatures
        ∧ c.name ∉ art.numStats.map (fun st => st.1)
        ∧ c.name ∉ art.catStats.map (fun cs => cs.1) := by
  have hfields := fitPipeline_ok hfit
  have hinj := @List.inj_on_of_nodup_map _ _ (fun c : Col => c.name) _ hnd
  have hnotnum : ∀ c ∈ X.cols, c.dtype ≠ DType.num →
      c.name ∉ (selectDtypes [DType.num] X).map (fun c => c.name) := by
    intro c hc h1 hmem
    obtain ⟨c2, hc2, hname⟩ := List.mem_map.mp hmem
    have hc2m := List.mem_filter.mp hc2
    have hdt : c2.dtype = DType.num := by
      have := hc2m.2
      simp at this
      exact this
    have : c2 = c := hinj hc2m.1 hc hname
    rw [← this] at h1
    exact h1 hdt
  have hnotobj : ∀ c ∈ X.cols, c.dtype ≠ DType.obj →
      c.name ∉ (selectDtypes [DType.obj] X).map (fun c => c.name) := by
    intro c hc h2 hmem
    obtain ⟨c2, hc2, hname⟩ := List.mem_map.mp hmem
    have hc2m := List.mem_filter.mp hc2
    have hdt : c2.dtype = DType.obj := by
      have := hc2m.2
      simp at this
      exact this
    have : c2 = c := hinj hc2m.1 hc hname
    rw [← this] at h2
    exact h2 hdt
  refine ⟨?_, hfields.2.1, hfields.2.2.1, ?_⟩
  · unfold trainModel
    simp only [Option.getD_some, htgt, hfeats]
    unfold trainModelBody
    simp only [hX, hy, hsp, hfit, hrows, hyv]
  · intro c hc h1 h2
    refine ⟨?_, ?_, ?_, ?_⟩
    · rw [hfields.2.1]
      exact hnotnum c hc h1
    · rw [hfields.2.2.1]
      exact hnotobj c hc h2
    · intro hmem
      obtain ⟨st, hst, hname⟩ := List.mem_map.mp hmem
      rw [hfields.2.2.2.2.1] at hst
      have := fitNumeric_names hst
      rw [hname] at this
      exact hnotnum c hc h1 this
    · intro hmem
      obtain ⟨cs, hcs, hname⟩ := List.mem_map.mp hmem
      rw [hfields.2.2.2.2.2] at hcs
      have := fitCat_names hcs
      rw [hname] at this
      exact hnotobj c hc h2 this

/-- Witness for C10 at the bool-column dataset: training with the bool
feature flag selected succeeds, and flag enters neither transformer list nor
any fitted statistics. -/
theorem C10_dtype_partition_witness :
    trainModel exLib ⟨some exDsBool, ModelState.noModel⟩ (some 1)
        (some "price") (some ["size", "flag", "color"])
      = (TrainMsg.success (r2score exYvBool (exRowsBool.map exArtBool.predictFn)),
          ⟨some exDsBool, ModelState.fitted exArtBool⟩)
    ∧ exArtBool.numericFeatures = ["size"]
    ∧ exArtBool.categoricalFeatures = ["color"]
    ∧ ("flag" ∉ exArtBool.numericFeatures
      ∧ "flag" ∉ exArtBool.categoricalFeatures
      ∧ "flag" ∉ exArtBool.numStats.map (fun st => st.1)
      ∧ "flag" ∉ exArtBool.catStats.map (fun cs => cs.1)) := by
  have h := C10_dtype_partition exLib exDsBool ModelState.noModel 1 "price"
    ["size", "flag", "color"] exXBool exYBool exSpBool exArtBool exRowsBool
    exYvBool rfl rfl rfl rfl rfl rfl rfl rfl (by decide)
  refine ⟨h.1, ?_, ?_, ?_⟩
  · rw [h.2.1]
    decide
  · rw [h.2.2.1]
    decide
  · have h4 := h.2.2.2 ⟨"flag", DType.boolT,
      [Cell.boolv true, Cell.boolv false, Cell.boolv true, Cell.boolv false,
        Cell.boolv true]⟩ (by decide) (by decide) (by decide)
    exact h4

/-- Witness for C9 amended, at the bool-column dataset. -/
theorem C9_amended_witness :
    ("size" ∈ getOptions (some exDsBool)
        ↔ ∃ c ∈ exDsBool.cols, c.name = "size"
          ∧ (c.dtype = DType.num ∨ c.dtype = DType.obj ∨ c.dtype = DType.catg))
    ∧ getOptions none = [] ∧ updateTargetDropdown none = [] := by
  have h := C9_amended exDsBool
  exact ⟨h.1 "size", h.2.2.1, h.2.2.2⟩

end XgApp
